import Mathlib

/-!
# Shallow embedding of `ksp-klient.py`

A command-line client for the KSP contest-grading HTTP API.  The embedding
models the pure request-building part of the API client (`KSPApiService`),
the non-200 error handling of `callApi`, the time-remaining formatter
(`czechTime` / `formatTime`), and the command handlers (in particular the
`run` orchestrator `handleRun`) as trace-producing functions.

Modelling conventions:
* Python dicts used for headers/params/data become association lists
  `List (String × String)`; the Python merge `{**a, **b}` (where `b`
  overrides `a`) is `a ++ b` with lookups taking the *last* binding.
* `divmod` on the (whole-second) durations is Python floor division; the
  divisors 86400/3600/60 are positive, so `Int.ediv`/`Int.emod` (remainder
  in `[0, divisor)`) coincide with the floored `divmod` of Python.
* Durations are modelled at whole-second granularity, so the
  `round(value)` applied to the components is the identity.
-/

set_option autoImplicit false

namespace KspKlient

/-- Python `str.startswith`: the characters of `p` are an initial segment
of the characters of `s`. -/
def pyStartsWith (s p : String) : Bool :=
  p.data.isPrefixOf s.data

/-- Python `str.join`: `sep.join(xs)`. -/
def pyJoin (sep : String) : List String → String
  | [] => ""
  | [x] => x
  | x :: xs => x ++ sep ++ pyJoin sep xs

/-- Lookup in an association-list "dict" where the *last* binding for a key
wins, matching Python dict-merge semantics when merged dicts are
concatenated left-to-right. -/
def dictGet (d : List (String × String)) (k : String) : Option String :=
  d.reverse.lookup k

/-- The enum `class APIOperation(enum.Enum)` with its five members. -/
inductive APIOperation where
  | LIST
  | STATUS
  | GET_TEST
  | SUBMIT
  | GENERATE
deriving DecidableEq, Repr

/-- Property `APIOperation.getURL`: the relative URL of each operation.  The
`urls` dict in the source covers all five members, so the
`sys.exit(1)` fallback is unreachable and the function is total. -/
def APIOperation.getURL : APIOperation → String
  | .LIST => "tasks/list"
  | .STATUS => "tasks/status"
  | .GET_TEST => "tasks/input"
  | .SUBMIT => "tasks/submit"
  | .GENERATE => "tasks/generate"

/-- HTTP method selected by `APIOperation.getHTTPMethod`
(`requests.get` / `requests.post`). -/
inductive HttpMethod where
  | get
  | post
deriving DecidableEq, Repr

/-- Property `APIOperation.getHTTPMethod`: LIST/STATUS use GET, the rest POST; the
two membership tests cover all five members, so the `sys.exit(1)` fallback
is unreachable. -/
def APIOperation.getHTTPMethod : APIOperation → HttpMethod
  | .LIST => .get
  | .STATUS => .get
  | .GET_TEST => .post
  | .SUBMIT => .post
  | .GENERATE => .post

/-- The HTTP request `callApi` hands to `requests.get`/`requests.post`:
URL, method, merged headers, query parameters and form-data body
(`data` keyword argument; an empty dict means an empty request body). -/
structure Request where
  operation : APIOperation
  url : String
  httpMethod : HttpMethod
  headers : List (String × String)
  params : List (String × String)
  data : List (String × String)
deriving DecidableEq, Repr

/-- Configuration of `KSPApiService` after `__init__`: base URL, bearer token
(first line of the token file), training-ground flag, verbosity flag. -/
structure KSPApiService where
  api_url : String
  token : String
  training_ground : Bool
  verbose : Bool
deriving Repr

/-- The header dict `self.headers`, holding `Authorization: Bearer <token>`. -/
def KSPApiService.headers (s : KSPApiService) : List (String × String) :=
  [("Authorization", "Bearer " ++ s.token)]

/-- The pure request-building part of `KSPApiService.callApi`:
`headers = {**self.headers, **extra_headers}`,
`url = self.api_url + operation.getURL`, method from `getHTTPMethod`,
`params=extra_params`, `data=data`. -/
def KSPApiService.callApi (s : KSPApiService) (operation : APIOperation)
    (extra_headers extra_params data : List (String × String)) : Request :=
  { operation := operation
    url := s.api_url ++ operation.getURL
    httpMethod := operation.getHTTPMethod
    headers := s.headers ++ extra_headers
    params := extra_params
    data := data }

/-- Method `getList`: an empty `param` dict, to which the entry mapping
the key `set` to `cviciste` is added when `self.training_ground` holds. -/
def KSPApiService.getList (s : KSPApiService) : Request :=
  s.callApi .LIST [] (if s.training_ground then [("set", "cviciste")] else []) []

/-- Method `getStatus(task)`. -/
def KSPApiService.getStatus (s : KSPApiService) (task : String) : Request :=
  s.callApi .STATUS [] [("task", task)] []

/-- Method `getTest(task, subtask, generate=True)`; the integer `subtask` query
parameter is serialized to its decimal string. -/
def KSPApiService.getTest (s : KSPApiService) (task : String) (subtask : Nat)
    (generate : Bool) : Request :=
  s.callApi .GET_TEST []
    [("task", task), ("subtask", toString subtask),
     ("generate", if generate then "true" else "false")] []

/-- Method `submit(task, subtask, content)`: it UTF-8-encodes `content`
but then calls `callApi` with only `extra_headers` and `extra_params` —
the encoded content is never passed on, so the `data` body of the request
stays the default empty dict. -/
def KSPApiService.submit (s : KSPApiService) (task : String) (subtask : Nat)
    (content : String) : Request :=
  -- the UTF-8 encoding of content is computed and discarded by the source
  let _encoded := content
  s.callApi .SUBMIT [("Content-Type", "text/plain")]
    [("task", task), ("subtask", toString subtask)] []

/-- Method `generate(task, subtask)`. -/
def KSPApiService.generate (s : KSPApiService) (task : String) (subtask : Nat) :
    Request :=
  s.callApi .GENERATE [] [("task", task), ("subtask", toString subtask)] []

/-! ## Error handling of `callApi` on a non-200 response -/

/-- An HTTP response as far as the non-200 branch of `callApi` inspects it:
status code, the `content-type` header (`none` when the header is absent),
what the `errorMsg` field of `response.json()` would yield (`none` when the body does
not parse as a JSON object carrying `errorMsg`, in which case that
expression raises), and the raw body text (`response.text`, a `str`
property of `requests.Response`). -/
structure HttpResponse where
  status_code : Nat
  contentTypeHeader : Option String
  jsonErrorMsg : Option String
  text : String
deriving DecidableEq, Repr

/-- Outcome of running a fragment of the Python client: normal value,
`sys.exit(code)` after printing `printed`, or an uncaught exception
(which also terminates the process with a failure status, but without
reaching any further print). -/
inductive PyOutcome (α : Type) where
  | ok : α → PyOutcome α
  | exited : (printed : List String) → (code : Nat) → PyOutcome α
  | raised : (printed : List String) → (exc : String) → PyOutcome α
deriving DecidableEq, Repr

/-- The generic message printed for a non-200 response whose content-type
is not `application/json`. -/
def nonJsonErrorMsg : String :=
  "Stránka KSP odpověděla chybou, která nemá json odpověď!"

/-- The message printed for a non-200 `application/json` response, with the
extracted `errorMsg` interpolated. -/
def jsonErrorLine (msg : String) : String :=
  "Stránka KSP nepřijala tvůj požadavek: " ++ msg

/-- The `if response.status_code != 200:` branch of `callApi`.

* The `content-type` subscript of `response.headers` is unguarded: when the
  header is absent it raises `KeyError` before anything is printed.
* When the header equals exactly `application/json`, the `errorMsg` field
  of `response.json()` is printed (raising if the body is not such a JSON
  object).
* Otherwise the generic message is printed; then, in verbose mode, the
  source runs `print(response.text())` — but `Response.text` is a `str`
  property, so calling it raises a `TypeError` (a `str` object is not
  callable) and the raw body is never printed. -/
def checkResponse (verbose : Bool) (response : HttpResponse) :
    PyOutcome HttpResponse :=
  if response.status_code ≠ 200 then
    match response.contentTypeHeader with
    | none => .raised [] "KeyError"
    | some ct =>
      if ct = "application/json" then
        match response.jsonErrorMsg with
        | some msg => .exited [jsonErrorLine msg] 1
        | none => .raised [] "JSONError"
      else
        if verbose then .raised [nonJsonErrorMsg] "TypeError"
        else .exited [nonJsonErrorMsg] 1
  else .ok response

/-- The lines printed by an outcome before the process (possibly) died. -/
def PyOutcome.printed {α : Type} : PyOutcome α → List String
  | .ok _ => []
  | .exited p _ => p
  | .raised p _ => p

/-! ## Time-remaining formatting (`czechTime`, `formatTime`) -/

/-- Function `czechTime(value, first_form, second_form, third_form)`; the
`round(value)` is the identity at the whole-second granularity of this
model. -/
def czechTime (value : Int) (first_form second_form third_form : String) :
    String :=
  if value = 0 then ""
  else if value = 1 then toString value ++ " " ++ first_form
  else if value < 5 then toString value ++ " " ++ second_form
  else toString value ++ " " ++ third_form

/-- The component strings of `formatTime`, keeping only the non-empty ones
(the loop appending each `x` with `x != \"\"` to `ret`). -/
def timeParts (days hours minutes seconds : Int) : List String :=
  ([czechTime days "den" "dny" "dnů",
    czechTime hours "hodina" "hodiny" "hodin",
    czechTime minutes "minuta" "minuty" "minut",
    czechTime seconds "sekunda" "sekundy" "sekund"]).filter (fun x => x != "")

/-- The final join of `formatTime`: fewer than three components are joined
by `\" a \"`; otherwise all but the last are joined by `\", \"` with
`\" a \"` before the last (`ret[-1]`, which exists since the list has at
least three elements; `getLastD` supplies an irrelevant default). -/
def joinTimeParts (ret : List String) : String :=
  if ret.length < 3 then pyJoin " a " ret
  else pyJoin ", " ret.dropLast ++ " a " ++ ret.getLastD ""

/-- Function `formatTime(subtask)`, with the fields of the subtask dict
passed directly:
`input_generated`, `input_valid_until` (an ISO timestamp string), and the
signed whole-second duration
`(fromisoformat(input_valid_until) - now()).total_seconds()`, which the
embedding takes as a parameter since it depends on the current clock.
The chained `divmod`s are Python floor division (positive divisors, so
`ediv`/`emod` agree with them): the intermediate variables named `hours`
and `minutes` in the source first hold the remainders `r1`, `r2`. -/
def formatTime (input_generated : Bool) (input_valid_until : String)
    (totalSeconds : Int) : String :=
  if input_generated then
    if pyStartsWith input_valid_until "9999" then "stále"
    else
      let days := totalSeconds.ediv 86400
      let r1 := totalSeconds.emod 86400
      let hours := r1.ediv 3600
      let r2 := r1.emod 3600
      let minutes := r2.ediv 60
      let seconds := r2.emod 60
      joinTimeParts (timeParts days hours minutes seconds)
  else "Nevygenerováno"

/-! ## Command handlers -/

/-- Fields `verdict`, `points` and `max_points` of the JSON object a
successful `submit` returns (opaque values, displayed only). -/
structure SubmitResponse where
  verdict : String
  points : String
  max_points : String
deriving DecidableEq, Repr

/-- The remote/system environment `handleRun` interacts with: the length of
the `subtasks` list in the status response, the text of each fetched test
input, the external solver (stdin text to captured stdout text,
`subprocess.check_output`), and the JSON body of each submit response. -/
structure RunEnv where
  numSubtasks : Nat
  testInput : Nat → String
  solver : String → String
  submitResp : Nat → String → SubmitResponse

/-- One observable step of `handleRun`. -/
inductive RunEvent where
  | statusCall (task : String)
  | getTestCall (task : String) (subtask : Nat)
  | solverRun (input : String)
  | submitCall (task : String) (subtask : Nat) (output : String)
  | printLine (line : String)
deriving DecidableEq, Repr

/-- The verdict line printed for one subtask: the subtask number, the
verdict, and the points fraction. -/
def verdictLine (env : RunEnv) (subtask : Nat) : String :=
  let output := env.solver (env.testInput subtask)
  let resp := env.submitResp subtask output
  let v := resp.verdict
  let p := resp.points
  let m := resp.max_points
  s!"Podúloha {subtask}: {v} ({p}/{m}b)"

/-- One iteration of the `for subtask in range(1, numberSubtasks+1):` loop
of `handleRun`, at loop counter `i` (so at subtask `i + 1`): fetch the
input, run the solver on it, submit the captured output, print the verdict
line. -/
def runBlock (env : RunEnv) (task : String) (i : Nat) : List RunEvent :=
  let subtask := i + 1
  let input := env.testInput subtask
  let output := env.solver input
  [RunEvent.getTestCall task subtask,
   RunEvent.solverRun input,
   RunEvent.submitCall task subtask output,
   RunEvent.printLine (verdictLine env subtask)]

/-- Handler `handleRun` as the trace of its observable steps: one status call to
count the subtasks, then the loop body once per subtask index. -/
def handleRun (env : RunEnv) (task : String) : List RunEvent :=
  RunEvent.statusCall task ::
  (List.range env.numSubtasks).flatMap (runBlock env task)

/-- The subtask index of a get-test event. -/
def RunEvent.getTestSubtask : RunEvent → Option Nat
  | .getTestCall _ i => some i
  | _ => none

/-- The stdin text of a solver execution event. -/
def RunEvent.solverInput : RunEvent → Option String
  | .solverRun input => some input
  | _ => none

/-- The subtask index and uploaded output of a submit event. -/
def RunEvent.submitPair : RunEvent → Option (Nat × String)
  | .submitCall _ i out => some (i, out)
  | _ => none

/-- The text of a print event. -/
def RunEvent.printedLine : RunEvent → Option String
  | .printLine l => some l
  | _ => none

/-- The API request a run-trace event stands for, given the service the
handlers call through (`getTest` is called with its default
`generate=True`). -/
def requestOfEvent (s : KSPApiService) (e : RunEvent) : Option Request :=
  match e with
  | .statusCall task => some (s.getStatus task)
  | .getTestCall task subtask => some (s.getTest task subtask true)
  | .submitCall task subtask output => some (s.submit task subtask output)
  | .solverRun _ => none
  | .printLine _ => none

/-- Requests issued by `handleList`. -/
def handleListRequests (s : KSPApiService) : List Request :=
  [s.getList]

/-- Requests issued by `handleStatus`. -/
def handleStatusRequests (s : KSPApiService) (task : String) : List Request :=
  [s.getStatus task]

/-- Requests issued by `handleSubmit` (the content of the file, read in
binary mode, is handed to `submit`). -/
def handleSubmitRequests (s : KSPApiService) (task : String) (subtask : Nat)
    (content : String) : List Request :=
  [s.submit task subtask content]

/-- Handler `handleGenerate`: it calls `kspApiService.getTest(task, subtask)` (with
the default `generate=True`) and prints `r.text`; the pair is the requests
it issues and the lines it prints, given the response text. -/
def handleGenerate (s : KSPApiService) (task : String) (subtask : Nat)
    (responseText : String) : List Request × List String :=
  ([s.getTest task subtask true], [responseText])

/-- Requests issued by `handleRun`: the projection of its trace to API
calls. -/
def handleRunRequests (s : KSPApiService) (env : RunEnv) (task : String) :
    List Request :=
  (handleRun env task).filterMap (requestOfEvent s)

end KspKlient

namespace KspKlient

/-! ## Claim theorems -/

/-- C1: the claim says the POST sent by `submit(task, subtask, content)`
carries the UTF-8 encoded `content` as its request body.  The code does
not: evaluating the embedded `submit` shows the request carries the task
and subtask query parameters and the `text/plain` content-type header, but
its `data` body is the empty default — whatever `content` is, the encoded
content is discarded and never reaches the request. -/
theorem submit_request_body_empty :
    ∀ content : String,
      (KSPApiService.submit ⟨"https://ksp.mff.cuni.cz/api/", "token", false, false⟩
          "32-Z4-1" 1 content).data = []
      ∧ dictGet (KSPApiService.submit ⟨"https://ksp.mff.cuni.cz/api/", "token", false, false⟩
          "32-Z4-1" 1 content).headers "Content-Type" = some "text/plain"
      ∧ (KSPApiService.submit ⟨"https://ksp.mff.cuni.cz/api/", "token", false, false⟩
          "32-Z4-1" 1 content).params = [("task", "32-Z4-1"), ("subtask", "1")] := by
  intro content
  exact ⟨rfl, rfl, rfl⟩

/-- C4: each of the five API operations is sent to its fixed relative path
(`tasks/list`, `tasks/status`, `tasks/input`, `tasks/submit`,
`tasks/generate`), list/status by GET and the rest by POST, and every
request carries the `Authorization: Bearer <token>` header. -/
theorem api_operations_method_path_auth (s : KSPApiService) (task : String)
    (subtask : Nat) (content : String) (generate : Bool) :
    ((s.getList).url = s.api_url ++ "tasks/list"
      ∧ (s.getList).httpMethod = HttpMethod.get
      ∧ dictGet (s.getList).headers "Authorization" = some ("Bearer " ++ s.token))
    ∧ ((s.getStatus task).url = s.api_url ++ "tasks/status"
      ∧ (s.getStatus task).httpMethod = HttpMethod.get
      ∧ dictGet (s.getStatus task).headers "Authorization" = some ("Bearer " ++ s.token))
    ∧ ((s.getTest task subtask generate).url = s.api_url ++ "tasks/input"
      ∧ (s.getTest task subtask generate).httpMethod = HttpMethod.post
      ∧ dictGet (s.getTest task subtask generate).headers "Authorization"
          = some ("Bearer " ++ s.token))
    ∧ ((s.submit task subtask content).url = s.api_url ++ "tasks/submit"
      ∧ (s.submit task subtask content).httpMethod = HttpMethod.post
      ∧ dictGet (s.submit task subtask content).headers "Authorization"
          = some ("Bearer " ++ s.token))
    ∧ ((s.generate task subtask).url = s.api_url ++ "tasks/generate"
      ∧ (s.generate task subtask).httpMethod = HttpMethod.post
      ∧ dictGet (s.generate task subtask).headers "Authorization"
          = some ("Bearer " ++ s.token)) :=
  ⟨⟨rfl, rfl, rfl⟩, ⟨rfl, rfl, rfl⟩, ⟨rfl, rfl, rfl⟩, ⟨rfl, rfl, rfl⟩,
   ⟨rfl, rfl, rfl⟩⟩

/-- C5: `getList` sends the training-ground filter parameter
`set=cviciste` exactly when training-ground mode is enabled, and sends no
query parameter at all when it is disabled. -/
theorem getList_training_ground_param (s : KSPApiService) :
    (dictGet (s.getList).params "set" = some "cviciste" ↔ s.training_ground = true)
    ∧ (s.training_ground = false → (s.getList).params = []) := by
  cases h : s.training_ground <;>
    simp [KSPApiService.getList, KSPApiService.callApi, dictGet, h]

/-- Witness for C5 at a concrete configuration with the flag disabled. -/
theorem getList_training_ground_param_witness :
    (KSPApiService.getList ⟨"https://ksp.mff.cuni.cz/api/", "token", false, false⟩).params
      = [] :=
  (getList_training_ground_param
    ⟨"https://ksp.mff.cuni.cz/api/", "token", false, false⟩).2 rfl

/-- Projecting a per-index block that contributes exactly one `f`-relevant
event out of a `range`-driven loop yields the per-index values in loop
order. -/
theorem filterMap_flatMap_range {α β : Type} (block : Nat → List α)
    (f : α → Option β) (g : Nat → β)
    (h : ∀ i, (block i).filterMap f = [g i]) :
    ∀ n : Nat, ((List.range n).flatMap block).filterMap f = (List.range n).map g := by
  intro n
  induction n with
  | zero => rfl
  | succ n ih =>
    rw [List.range_succ, List.flatMap_append, List.filterMap_append, ih,
      List.map_append]
    simp [h]

/-- C2: for a status response with `N` subtasks, the run orchestrator
performs, for each subtask index `1..N` in increasing order with no
reordering or filtering, exactly one get-test call (at that index), one
solver execution (on the fetched input), and one submit (of the captured
solver output at that index), and prints exactly one verdict line per
subtask; with `N = 3` each projection is the three-element list for
indices 1, 2, 3 in that order. -/
theorem handleRun_per_subtask_trace (env : RunEnv) (task : String) :
    ((handleRun env task).filterMap RunEvent.getTestSubtask
        = (List.range env.numSubtasks).map (fun i => i + 1))
    ∧ ((handleRun env task).filterMap RunEvent.solverInput
        = (List.range env.numSubtasks).map (fun i => env.testInput (i + 1)))
    ∧ ((handleRun env task).filterMap RunEvent.submitPair
        = (List.range env.numSubtasks).map
            (fun i => (i + 1, env.solver (env.testInput (i + 1)))))
    ∧ ((handleRun env task).filterMap RunEvent.printedLine
        = (List.range env.numSubtasks).map (fun i => verdictLine env (i + 1))) := by
  have h1 := filterMap_flatMap_range (runBlock env task) RunEvent.getTestSubtask
    (fun i => i + 1) (fun i => rfl) env.numSubtasks
  have h2 := filterMap_flatMap_range (runBlock env task) RunEvent.solverInput
    (fun i => env.testInput (i + 1)) (fun i => rfl) env.numSubtasks
  have h3 := filterMap_flatMap_range (runBlock env task) RunEvent.submitPair
    (fun i => (i + 1, env.solver (env.testInput (i + 1)))) (fun i => rfl)
    env.numSubtasks
  have h4 := filterMap_flatMap_range (runBlock env task) RunEvent.printedLine
    (fun i => verdictLine env (i + 1)) (fun i => rfl) env.numSubtasks
  refine ⟨?_, ?_, ?_, ?_⟩
  · simpa [handleRun, RunEvent.getTestSubtask] using h1
  · simpa [handleRun, RunEvent.solverInput] using h2
  · simpa [handleRun, RunEvent.submitPair] using h3
  · simpa [handleRun, RunEvent.printedLine] using h4

/-- C6: the time-remaining formatter returns the literal `Nevygenerováno`
("not generated") whenever `input_generated` is false; returns the literal
`stále` ("forever") for every generated subtask whose expiry string starts
with `9999` (i.e. whose expiry year is 9999); formats a generated subtask
expiring exactly 90 seconds from now as `1 minuta a 30 sekund` (singular
minute, plural seconds, no day or hour component); and joins two non-zero
components with ` a ` ("and") and three or more with `, ` and a final
` a ` before the last. -/
theorem formatTime_spec :
    (∀ (vu : String) (t : Int), formatTime false vu t = "Nevygenerováno")
    ∧ (∀ (vu : String) (t : Int), pyStartsWith vu "9999" = true →
        formatTime true vu t = "stále")
    ∧ formatTime true "2026-12-31T23:59:59+01:00" 90 = "1 minuta a 30 sekund"
    ∧ (∀ a b : String, joinTimeParts [a, b] = a ++ " a " ++ b)
    ∧ (∀ a b c : String, joinTimeParts [a, b, c] = a ++ ", " ++ b ++ " a " ++ c)
    ∧ (∀ a b c d : String,
        joinTimeParts [a, b, c, d] = a ++ ", " ++ b ++ ", " ++ c ++ " a " ++ d) := by
  refine ⟨fun vu t => rfl, fun vu t h => by simp [formatTime, h], by decide,
    fun a b => rfl, fun a b c => ?_, fun a b c d => ?_⟩ <;>
    simp [joinTimeParts, pyJoin, String.append_assoc]

/-- Witness for the sentinel branches of C6 at concrete inputs. -/
theorem formatTime_spec_witness :
    formatTime false "2026-01-01T00:00:00+01:00" 90 = "Nevygenerováno"
    ∧ formatTime true "9999-12-31T23:59:59+00:00" 5 = "stále" :=
  ⟨formatTime_spec.1 "2026-01-01T00:00:00+01:00" 90,
   formatTime_spec.2.1 "9999-12-31T23:59:59+00:00" 5 rfl⟩

/-- C7 counterexample: the claim says a component value of 0 yields the
plural form; in fact `czechTime` returns the empty string for 0, not the
plural rendering `0 dnů`. -/
theorem czechTime_zero_counterexample :
    czechTime 0 "den" "dny" "dnů" = ""
    ∧ czechTime 0 "den" "dny" "dnů" ≠ "0 dnů" := by
  exact ⟨rfl, by decide⟩

/-- C7 (amended): value 1 yields the singular form, values 2, 3, 4 yield
the "few" form, values ≥ 5 yield the plural form, and value 0 yields the
empty string — so a 0-valued component is omitted entirely from the joined
output (here: a zero day count contributes nothing to the component
list). -/
theorem czechTime_pluralization (v : Int) (f s t : String) :
    (v = 1 → czechTime v f s t = "1 " ++ f)
    ∧ ((v = 2 ∨ v = 3 ∨ v = 4) → czechTime v f s t = toString v ++ " " ++ s)
    ∧ (5 ≤ v → czechTime v f s t = toString v ++ " " ++ t)
    ∧ (v = 0 → czechTime v f s t = "")
    ∧ (∀ h m sec : Int, timeParts 0 h m sec
        = ([czechTime h "hodina" "hodiny" "hodin",
            czechTime m "minuta" "minuty" "minut",
            czechTime sec "sekunda" "sekundy" "sekund"]).filter (fun x => x != "")) := by
  refine ⟨fun h1 => by subst h1; rfl,
    fun h234 => by rcases h234 with rfl | rfl | rfl <;> rfl,
    fun h5 => ?_,
    fun h0 => by subst h0; rfl,
    fun h m sec => rfl⟩
  rw [czechTime, if_neg (by omega), if_neg (by omega), if_neg (by omega)]

/-- Witness for the amended pluralization rule of C7 at concrete values. -/
theorem czechTime_pluralization_witness :
    czechTime 1 "den" "dny" "dnů" = "1 " ++ "den"
    ∧ czechTime 3 "den" "dny" "dnů" = toString (3 : Int) ++ " " ++ "dny"
    ∧ czechTime 7 "den" "dny" "dnů" = toString (7 : Int) ++ " " ++ "dnů"
    ∧ czechTime 0 "den" "dny" "dnů" = ""
    ∧ timeParts 0 1 2 5
        = ([czechTime 1 "hodina" "hodiny" "hodin",
            czechTime 2 "minuta" "minuty" "minut",
            czechTime 5 "sekunda" "sekundy" "sekund"]).filter (fun x => x != "") :=
  ⟨(czechTime_pluralization 1 "den" "dny" "dnů").1 rfl,
   (czechTime_pluralization 3 "den" "dny" "dnů").2.1 (Or.inr (Or.inl rfl)),
   (czechTime_pluralization 7 "den" "dny" "dnů").2.2.1 (by omega),
   (czechTime_pluralization 0 "den" "dny" "dnů").2.2.2.1 rfl,
   (czechTime_pluralization 0 "den" "dny" "dnů").2.2.2.2 1 2 5⟩

/-- Joining a non-empty component list starts with its first component. -/
theorem pyJoin_cons_head (sep a : String) (l : List String) :
    ∃ r : String, pyJoin sep (a :: l) = a ++ r := by
  cases l with
  | nil => exact ⟨"", (String.append_empty a).symm⟩
  | cons b bs => exact ⟨sep ++ pyJoin sep (b :: bs), String.append_assoc a sep _⟩

/-- The final join of `formatTime` starts with the first component. -/
theorem joinTimeParts_cons_head (a : String) (l : List String) :
    ∃ r : String, joinTimeParts (a :: l) = a ++ r := by
  rw [joinTimeParts]
  by_cases hl : (a :: l).length < 3
  · rw [if_pos hl]
    exact pyJoin_cons_head " a " a l
  · rw [if_neg hl]
    have hlne : l ≠ [] := by
      intro h
      subst h
      simp at hl
    rw [List.dropLast_cons_of_ne_nil hlne]
    obtain ⟨r, hr⟩ := pyJoin_cons_head ", " a l.dropLast
    exact ⟨r ++ (" a " ++ (a :: l).getLastD ""), by
      rw [hr, String.append_assoc, String.append_assoc]⟩

/-- For a generated subtask not at the 9999 sentinel, `formatTime` is the
joined component list of the chained floor divisions of the total
seconds. -/
theorem formatTime_generated (vu : String) (t : Int)
    (hvu : pyStartsWith vu "9999" = false) :
    formatTime true vu t
      = joinTimeParts (timeParts (t.ediv 86400) ((t.emod 86400).ediv 3600)
          (((t.emod 86400).emod 3600).ediv 60) (((t.emod 86400).emod 3600).emod 60)) := by
  rw [formatTime]
  simp [hvu]

/-- C8 counterexample: for a generated subtask whose expiry lies 90 seconds
in the past, the formatter does not floor the duration to zero — the floor
divisions give a day count of −1 and the output carries the negative
component `-1 dny`. -/
theorem formatTime_past_counterexample :
    formatTime true "2024-01-01T00:00:00+00:00" (-90)
      = "-1 dny, 23 hodin, 58 minut a 30 sekund"
    ∧ Int.ediv (-90) 86400 < 0 := by
  exact ⟨by decide, by decide⟩

/-- C8 (amended): for every generated, non-sentinel subtask whose expiry is
already in the past, the duration is not floored to zero: the floored day
component `ediv totalSeconds 86400` is negative, it renders (through the
"few" form, since every negative value falls in the `value < 5` branch) as
`toString days ++ " dny"`, and this negative component appears at the head
of the formatter's output. -/
theorem formatTime_past_negative (vu : String) (t : Int)
    (hvu : pyStartsWith vu "9999" = false) (ht : t < 0) :
    t.ediv 86400 < 0
    ∧ czechTime (t.ediv 86400) "den" "dny" "dnů" = toString (t.ediv 86400) ++ " dny"
    ∧ ∃ rest : String,
        formatTime true vu t
          = czechTime (t.ediv 86400) "den" "dny" "dnů" ++ rest := by
  have hdays : t.ediv 86400 < 0 := Int.ediv_neg' ht (by omega)
  have hday_str : czechTime (t.ediv 86400) "den" "dny" "dnů"
      = toString (t.ediv 86400) ++ " dny" := by
    rw [czechTime, if_neg (by omega), if_neg (by omega), if_pos (by omega),
      String.append_assoc]
    rfl
  refine ⟨hdays, hday_str, ?_⟩
  have hne : czechTime (t.ediv 86400) "den" "dny" "dnů" ≠ "" := by
    rw [hday_str]
    intro h
    have := congrArg String.data h
    rw [String.data_append] at this
    exact List.append_ne_nil_of_right_ne_nil _ (by decide) this
  rw [formatTime_generated vu t hvu]
  simp only [timeParts]
  rw [List.filter_cons, if_pos (by simpa using hne)]
  exact joinTimeParts_cons_head _ _

/-- Witness for the amended statement of C8 at a concrete past expiry. -/
theorem formatTime_past_negative_witness :
    Int.ediv (-90) 86400 < 0
    ∧ czechTime (Int.ediv (-90) 86400) "den" "dny" "dnů"
        = toString (Int.ediv (-90) 86400) ++ " dny"
    ∧ ∃ rest : String,
        formatTime true "2024-01-01T00:00:00+00:00" (-90)
          = czechTime (Int.ediv (-90) 86400) "den" "dny" "dnů" ++ rest :=
  formatTime_past_negative "2024-01-01T00:00:00+00:00" (-90) rfl (by omega)

/-- C3: on a non-200 `application/json` response the embedded error message
X is reported verbatim and the process exits with failure, and on a
non-200 non-JSON response the generic message is reported with a failure
exit when verbose is off — but with verbose on, the code calls
`response.text()` although `Response.text` is a `str` property, so it dies
with `TypeError` and the raw response body is never shown, contradicting
the clause of the claim that the raw body is shown if and only if verbose
mode is on. -/
theorem checkResponse_error_paths :
    checkResponse false ⟨403, some "application/json", some "X", "errorMsg X"⟩
      = PyOutcome.exited [jsonErrorLine "X"] 1
    ∧ jsonErrorLine "X" = "Stránka KSP nepřijala tvůj požadavek: X"
    ∧ checkResponse false ⟨500, some "text/html", none, "Server Error"⟩
      = PyOutcome.exited [nonJsonErrorMsg] 1
    ∧ checkResponse true ⟨500, some "text/html", none, "Server Error"⟩
      = PyOutcome.raised [nonJsonErrorMsg] "TypeError"
    ∧ "Server Error"
        ∉ (checkResponse true ⟨500, some "text/html", none, "Server Error"⟩).printed := by
  refine ⟨rfl, rfl, rfl, rfl, by decide⟩

/-- C10: on a non-200 response the dispatch reads the content-type header
with an unguarded lookup: when the header is absent the lookup raises
`KeyError` with nothing printed (neither the JSON message nor the generic
one); when the header is present but not exactly `application/json` only
the generic message is printed; and any printed JSON-extracted message
implies the header was present and exactly `application/json`. -/
theorem checkResponse_content_type_dispatch (verbose : Bool)
    (response : HttpResponse) (h : response.status_code ≠ 200) :
    (response.contentTypeHeader = none →
      checkResponse verbose response = PyOutcome.raised [] "KeyError")
    ∧ (∀ ct : String, response.contentTypeHeader = some ct →
        ct ≠ "application/json" →
        (checkResponse verbose response).printed = [nonJsonErrorMsg])
    ∧ (∀ msg : String,
        jsonErrorLine msg ∈ (checkResponse verbose response).printed →
        response.contentTypeHeader = some "application/json") := by
  have hjson_ne : ∀ msg : String, jsonErrorLine msg ≠ nonJsonErrorMsg := by
    intro msg heq
    have hd := congrArg (fun x : String => x.data.take 13) heq
    simp only [jsonErrorLine, nonJsonErrorMsg, String.data_append] at hd
    rw [List.take_append_of_le_length (by decide)] at hd
    exact absurd hd (by decide)
  refine ⟨fun hnone => by rw [checkResponse, if_pos h, hnone], ?_, ?_⟩
  · intro ct hct hne
    cases verbose <;> simp [checkResponse, h, hct, hne, PyOutcome.printed]
  · intro msg hmem
    cases hhd : response.contentTypeHeader with
    | none => simp [checkResponse, h, hhd, PyOutcome.printed] at hmem
    | some ct =>
      by_cases hct : ct = "application/json"
      · rw [hct]
      · cases verbose <;>
          simp [checkResponse, h, hhd, hct, PyOutcome.printed] at hmem <;>
          exact absurd hmem (hjson_ne msg)

/-- Witness for C10: a concrete non-200 response with no content-type
header raises `KeyError` with nothing printed. -/
theorem checkResponse_content_type_dispatch_witness :
    checkResponse false ⟨404, none, none, "not found"⟩
      = PyOutcome.raised [] "KeyError" :=
  (checkResponse_content_type_dispatch false ⟨404, none, none, "not found"⟩
    (by decide)).1 rfl

/-- Requests projected from a run-trace event never target the
`tasks/generate` operation. -/
theorem requestOfEvent_ne_generate (s : KSPApiService) (e : RunEvent)
    (r : Request) (h : requestOfEvent s e = some r) :
    r.operation ≠ APIOperation.GENERATE := by
  cases e <;> simp only [requestOfEvent, Option.some.injEq] at h <;>
    first
      | exact absurd h (by simp)
      | (subst h; simp [KSPApiService.getStatus, KSPApiService.getTest,
          KSPApiService.submit, KSPApiService.callApi])

/-- C9: the `generate` CLI subcommand handler calls `getTest` (relative
path `tasks/input`, with query parameter `generate=true`) and prints the
returned text; the `tasks/generate` operation is targeted by the unused
`generate()` client method but by no command handler: every request any of
the five handlers issues has an operation other than GENERATE. -/
theorem handleGenerate_uses_input_not_generate (s : KSPApiService)
    (task : String) (subtask : Nat) (content responseText : String)
    (env : RunEnv) :
    handleGenerate s task subtask responseText
        = ([s.getTest task subtask true], [responseText])
    ∧ (s.getTest task subtask true).operation = APIOperation.GET_TEST
    ∧ (s.getTest task subtask true).url = s.api_url ++ "tasks/input"
    ∧ dictGet (s.getTest task subtask true).params "generate" = some "true"
    ∧ (s.generate task subtask).operation = APIOperation.GENERATE
    ∧ (s.generate task subtask).url = s.api_url ++ "tasks/generate"
    ∧ (∀ r ∈ (handleGenerate s task subtask responseText).1,
        r.operation ≠ APIOperation.GENERATE)
    ∧ (∀ r ∈ handleListRequests s, r.operation ≠ APIOperation.GENERATE)
    ∧ (∀ r ∈ handleStatusRequests s task, r.operation ≠ APIOperation.GENERATE)
    ∧ (∀ r ∈ handleSubmitRequests s task subtask content,
        r.operation ≠ APIOperation.GENERATE)
    ∧ (∀ r ∈ handleRunRequests s env task,
        r.operation ≠ APIOperation.GENERATE) := by
  refine ⟨rfl, rfl, rfl, rfl, rfl, rfl, ?_, ?_, ?_, ?_, ?_⟩
  · intro r hr
    simp only [handleGenerate, List.mem_singleton] at hr
    subst hr
    simp [KSPApiService.getTest, KSPApiService.callApi]
  · intro r hr
    simp only [handleListRequests, List.mem_singleton] at hr
    subst hr
    simp [KSPApiService.getList, KSPApiService.callApi]
  · intro r hr
    simp only [handleStatusRequests, List.mem_singleton] at hr
    subst hr
    simp [KSPApiService.getStatus, KSPApiService.callApi]
  · intro r hr
    simp only [handleSubmitRequests, List.mem_singleton] at hr
    subst hr
    simp [KSPApiService.submit, KSPApiService.callApi]
  · intro r hr
    rw [handleRunRequests] at hr
    obtain ⟨e, _, hreq⟩ := List.mem_filterMap.mp hr
    exact requestOfEvent_ne_generate s e r hreq

/-- Witness for C9 at a concrete service, environment and request. -/
theorem handleGenerate_uses_input_not_generate_witness :
    (KSPApiService.getStatus ⟨"u/", "tok", false, false⟩ "32-Z4-1").operation
      ≠ APIOperation.GENERATE :=
  (handleGenerate_uses_input_not_generate ⟨"u/", "tok", false, false⟩ "32-Z4-1"
      1 "content" "text"
      ⟨1, fun _ => "in", fun _ => "out", fun _ _ => ⟨"OK", "1", "1"⟩⟩).2.2.2.2.2.2.2.2.1
    (KSPApiService.getStatus ⟨"u/", "tok", false, false⟩ "32-Z4-1") (by decide)

end KspKlient
